import Mathlib

/-
Verification development for the WasteSensFW firmware core.

The C++ sources are shallowly embedded: pure functions become Lean
functions over ℚ (the firmware's float arithmetic is modelled by exact
rational arithmetic), `uint32_t` millisecond clocks become Nat reduced
mod 2^32 at each subtraction, and hardware collaborators (modem, MQTT
client, echo pulses) become explicit environment oracles.
-/

/-- 2^32, the modulus of the firmware's uint32_t millisecond arithmetic. -/
def U32 : Nat := 4294967296

/-- Wraparound-safe uint32 subtraction a - b, as in C (millis() - t0). -/
def u32sub (a b : Nat) : Nat := (a % U32 + (U32 - b % U32)) % U32

theorem u32sub_mod_right (a b : Nat) : u32sub a (b % U32) = u32sub a b := by
  simp [u32sub, Nat.mod_mod]

theorem u32sub_self_mod (a : Nat) : u32sub a (a % U32) = 0 := by
  simp only [u32sub, U32]
  omega

namespace Drivers

/-- Speed of sound in cm/µs, from us100_driver.h (0.0343f). -/
def SOUND_SPEED_CM_PER_US : ℚ := 343 / 10000

/-- Embeds US100Driver::measureDistanceCm (us100_driver.cpp:37-49).
The raw input is the echo pulse duration in µs as returned by
measurePulse, where 0 means timeout / no echo. -/
def measureDistanceCm (duration : Nat) : ℚ :=
  if duration = 0 then -1
  else ((duration : ℚ) * SOUND_SPEED_CM_PER_US) / 2

/-- The accumulation loop of US100Driver::measureDistanceAvgCm
(us100_driver.cpp:57-66): processes raw samples 0..n-1 in order,
returning (sum of the distances counted, number counted); the code
counts a sample iff its converted distance is > 0. -/
def avgLoop (raw : Nat → Nat) : Nat → ℚ × Nat
  | 0 => (0, 0)
  | n + 1 =>
    let acc := avgLoop raw n
    let d := measureDistanceCm (raw n)
    if 0 < d then (acc.1 + d, acc.2 + 1) else acc

/-- Embeds US100Driver::measureDistanceAvgCm (us100_driver.cpp:51-73):
a samples argument of 0 is replaced by 1; the averaging divides by the
number of counted samples only when that number is nonzero, otherwise
the function returns -1. -/
def measureDistanceAvgCm (samples : Nat) (raw : Nat → Nat) : ℚ :=
  let n := if samples = 0 then 1 else samples
  let acc := avgLoop raw n
  if acc.2 = 0 then -1 else acc.1 / (acc.2 : ℚ)

end Drivers

namespace HAL

/-- Embeds struct DistanceReading (sensor_hal.h). -/
structure DistanceReading where
  valid : Bool
  distanceCm : ℚ
  timestamp : Nat
deriving DecidableEq

/-- SENSOR_MIN_DISTANCE_CM from config.h (2.0f). -/
def SENSOR_MIN_DISTANCE_CM : ℚ := 2

/-- SENSOR_MAX_DISTANCE_CM from config.h (400.0f). -/
def SENSOR_MAX_DISTANCE_CM : ℚ := 400

/-- Embeds SensorHAL::getDistanceAvg (sensor_hal.cpp:50-67): the range
check against [SENSOR_MIN_DISTANCE_CM, SENSOR_MAX_DISTANCE_CM] is
applied to the averaged value returned by the driver. -/
def getDistanceAvg (samples : Nat) (raw : Nat → Nat) (now : Nat) : DistanceReading :=
  let distance := Drivers.measureDistanceAvgCm samples raw
  if distance < 0 ∨ distance < SENSOR_MIN_DISTANCE_CM ∨ distance > SENSOR_MAX_DISTANCE_CM then
    ⟨false, -1, now⟩
  else
    ⟨true, distance, now⟩

end HAL

namespace SpecModel

/-- Follows the spec's words for the averaged measurement (claim about
sample validity): a reading is valid iff MIN_DISTANCE ≤ value ≤
MAX_DISTANCE and the underlying measurement did not time out. -/
def specValidSample (d : ℚ) : Bool :=
  decide (0 < d) && decide (HAL.SENSOR_MIN_DISTANCE_CM ≤ d) &&
    decide (d ≤ HAL.SENSOR_MAX_DISTANCE_CM)

/-- Accumulation over samples 0..n-1 keeping only spec-valid ones. -/
def specAvgLoop (raw : Nat → Nat) : Nat → ℚ × Nat
  | 0 => (0, 0)
  | n + 1 =>
    let acc := specAvgLoop raw n
    let d := Drivers.measureDistanceCm (raw n)
    if specValidSample d then (acc.1 + d, acc.2 + 1) else acc

/-- Follows the spec's words: average only the valid readings; if zero
readings are valid, return INVALID (-1). -/
def specSampleAvg (samples : Nat) (raw : Nat → Nat) : ℚ :=
  let n := if samples = 0 then 1 else samples
  let acc := specAvgLoop raw n
  if acc.2 = 0 then -1 else acc.1 / (acc.2 : ℚ)

end SpecModel

/-- Number of samples among 0..n-1 whose measurement did not time out. -/
def ntCount (raw : Nat → Nat) : Nat → Nat
  | 0 => 0
  | n + 1 => ntCount raw n + (if raw n = 0 then 0 else 1)

/-- Sum of the converted distances of the no-timeout samples among 0..n-1. -/
def ntSum (raw : Nat → Nat) : Nat → ℚ
  | 0 => 0
  | n + 1 => ntSum raw n + (if raw n = 0 then 0 else Drivers.measureDistanceCm (raw n))

theorem measureDistanceCm_pos_iff (d : Nat) :
    0 < Drivers.measureDistanceCm d ↔ d ≠ 0 := by
  unfold Drivers.measureDistanceCm
  rcases Nat.eq_zero_or_pos d with h | h
  · subst h; norm_num
  · have hne : d ≠ 0 := Nat.pos_iff_ne_zero.mp h
    have hd : (0 : ℚ) < d := by exact_mod_cast h
    simp only [hne, if_false]
    constructor
    · intro _; exact hne
    · intro _
      have hs : (0 : ℚ) < Drivers.SOUND_SPEED_CM_PER_US := by
        norm_num [Drivers.SOUND_SPEED_CM_PER_US]
      positivity

theorem avgLoop_eq (raw : Nat → Nat) (n : Nat) :
    Drivers.avgLoop raw n = (ntSum raw n, ntCount raw n) := by
  induction n with
  | zero => rfl
  | succ n ih =>
    unfold Drivers.avgLoop ntSum ntCount
    rw [ih]
    by_cases h : raw n = 0
    · have hm : Drivers.measureDistanceCm 0 = -1 := by
        simp [Drivers.measureDistanceCm]
      norm_num [h, hm]
    · have : 0 < Drivers.measureDistanceCm (raw n) :=
        (measureDistanceCm_pos_iff (raw n)).mpr h
      simp [h, this]

/-- Concrete raw echo durations for the C1 counterexample: sample 0
converts to 514.5 cm (beyond SENSOR_MAX_DISTANCE_CM), sample 1 to
68.6 cm (in range). -/
def rawC1 : Nat → Nat := fun i => if i = 0 then 30000 else 4000

/-- C1: the claim says a sample counts as valid iff it did not time out
AND lies within [MIN_DISTANCE, MAX_DISTANCE], and that the result is
never a partial average including an out-of-range sample.  In the code,
US100Driver::measureDistanceAvgCm counts every sample with distance > 0
(no per-sample range check); here the 514.5 cm out-of-range sample is
averaged in, giving 291.55 cm instead of the claim's 68.6 cm, and the
reading is reported valid. -/
theorem C1_counterexample :
    (HAL.getDistanceAvg 2 rawC1 0).valid = true ∧
    (HAL.getDistanceAvg 2 rawC1 0).distanceCm = 5831 / 20 ∧
    SpecModel.specSampleAvg 2 rawC1 = 343 / 5 ∧
    Drivers.measureDistanceCm (rawC1 0) > HAL.SENSOR_MAX_DISTANCE_CM ∧
    0 < Drivers.measureDistanceCm (rawC1 0) ∧
    (HAL.getDistanceAvg 2 rawC1 0).distanceCm ≠ SpecModel.specSampleAvg 2 rawC1 := by
  have h0 : Drivers.measureDistanceCm (rawC1 0) = 1029 / 2 := by
    norm_num [rawC1, Drivers.measureDistanceCm, Drivers.SOUND_SPEED_CM_PER_US]
  have h1 : Drivers.measureDistanceCm (rawC1 1) = 343 / 5 := by
    norm_num [rawC1, Drivers.measureDistanceCm, Drivers.SOUND_SPEED_CM_PER_US]
  have hloop : Drivers.avgLoop rawC1 2 = (5831 / 10, 2) := by
    norm_num [Drivers.avgLoop, h0, h1]
  have havg : Drivers.measureDistanceAvgCm 2 rawC1 = 5831 / 20 := by
    norm_num [Drivers.measureDistanceAvgCm, hloop]
  have hspec : SpecModel.specSampleAvg 2 rawC1 = 343 / 5 := by
    have s0 : SpecModel.specValidSample (1029 / 2 : ℚ) = false := by
      norm_num [SpecModel.specValidSample, HAL.SENSOR_MIN_DISTANCE_CM,
        HAL.SENSOR_MAX_DISTANCE_CM]
    have s1 : SpecModel.specValidSample (343 / 5 : ℚ) = true := by
      norm_num [SpecModel.specValidSample, HAL.SENSOR_MIN_DISTANCE_CM,
        HAL.SENSOR_MAX_DISTANCE_CM]
    norm_num [SpecModel.specSampleAvg, SpecModel.specAvgLoop, h0, h1, s0, s1]
  have hget : HAL.getDistanceAvg 2 rawC1 0 = ⟨true, 5831 / 20, 0⟩ := by
    norm_num [HAL.getDistanceAvg, havg, HAL.SENSOR_MIN_DISTANCE_CM,
      HAL.SENSOR_MAX_DISTANCE_CM]
  refine ⟨by rw [hget], by rw [hget], hspec, by rw [h0]; norm_num [HAL.SENSOR_MAX_DISTANCE_CM],
    by rw [h0]; norm_num, ?_⟩
  rw [hget, hspec]
  norm_num

/-- C1 (amended): in measureDistanceAvgCm a sample counts as valid iff
the measurement did not time out (converted distance > 0, i.e. nonzero
echo duration); the driver returns the arithmetic mean of exactly those
samples, and -1 if none; the [MIN, MAX] range check is applied by
SensorHAL::getDistanceAvg to the averaged value, which marks the
reading invalid with distanceCm = -1 (never 0) when the average is out
of range. -/
theorem C1_amended_averaging (samples : Nat) (raw : Nat → Nat) (now : Nat) :
    (ntCount raw (if samples = 0 then 1 else samples) = 0 →
      Drivers.measureDistanceAvgCm samples raw = -1 ∧
      HAL.getDistanceAvg samples raw now = ⟨false, -1, now⟩) ∧
    (ntCount raw (if samples = 0 then 1 else samples) ≠ 0 →
      Drivers.measureDistanceAvgCm samples raw =
        ntSum raw (if samples = 0 then 1 else samples) /
          (ntCount raw (if samples = 0 then 1 else samples) : ℚ)) ∧
    ((HAL.getDistanceAvg samples raw now).valid = true ↔
      HAL.SENSOR_MIN_DISTANCE_CM ≤ Drivers.measureDistanceAvgCm samples raw ∧
        Drivers.measureDistanceAvgCm samples raw ≤ HAL.SENSOR_MAX_DISTANCE_CM) ∧
    ((HAL.getDistanceAvg samples raw now).valid = false →
      (HAL.getDistanceAvg samples raw now).distanceCm = -1) := by
  have hloop := avgLoop_eq raw (if samples = 0 then 1 else samples)
  have hunf : Drivers.measureDistanceAvgCm samples raw =
      (if ntCount raw (if samples = 0 then 1 else samples) = 0 then (-1 : ℚ)
       else ntSum raw (if samples = 0 then 1 else samples) /
         (ntCount raw (if samples = 0 then 1 else samples) : ℚ)) := by
    simp only [Drivers.measureDistanceAvgCm, avgLoop_eq]
  refine ⟨?_, ?_, ?_, ?_⟩
  · intro h
    have havg : Drivers.measureDistanceAvgCm samples raw = -1 := by rw [hunf, if_pos h]
    exact ⟨havg, by norm_num [HAL.getDistanceAvg, havg, HAL.SENSOR_MIN_DISTANCE_CM,
      HAL.SENSOR_MAX_DISTANCE_CM]⟩
  · intro h
    rw [hunf, if_neg h]
  · unfold HAL.getDistanceAvg
    by_cases hc : Drivers.measureDistanceAvgCm samples raw < 0 ∨
        Drivers.measureDistanceAvgCm samples raw < HAL.SENSOR_MIN_DISTANCE_CM ∨
        Drivers.measureDistanceAvgCm samples raw > HAL.SENSOR_MAX_DISTANCE_CM
    · rw [if_pos hc]
      simp only [Bool.false_eq_true, false_iff]
      rintro ⟨hlo, hhi⟩
      have h2 : (0 : ℚ) < HAL.SENSOR_MIN_DISTANCE_CM := by norm_num [HAL.SENSOR_MIN_DISTANCE_CM]
      rcases hc with hc | hc | hc
      · linarith
      · linarith
      · linarith
    · rw [if_neg hc]
      push_neg at hc
      simp only [true_iff]
      exact ⟨hc.2.1, hc.2.2⟩
  · unfold HAL.getDistanceAvg
    by_cases hc : Drivers.measureDistanceAvgCm samples raw < 0 ∨
        Drivers.measureDistanceAvgCm samples raw < HAL.SENSOR_MIN_DISTANCE_CM ∨
        Drivers.measureDistanceAvgCm samples raw > HAL.SENSOR_MAX_DISTANCE_CM
    · rw [if_pos hc]; intro _; rfl
    · rw [if_neg hc]; intro h; exact absurd h (by norm_num)

/-- Witness for C1_amended_averaging at concrete inputs: with both
echo durations zero (all samples time out), the driver returns -1 and
the HAL reading is invalid with distanceCm = -1. -/
theorem C1_amended_averaging_witness :
    Drivers.measureDistanceAvgCm 2 (fun _ => 0) = -1 ∧
    HAL.getDistanceAvg 2 (fun _ => 0) 7 = ⟨false, -1, 7⟩ :=
  (C1_amended_averaging 2 (fun _ => 0) 7).1 (by norm_num [ntCount])

/-- C10: measureDistanceAvgCm is total (a Lean function by
construction) and never divides by zero: a samples argument of 0 is
treated as 1, the result is -1 whenever the loop counted zero valid
samples (no division), and the division by the count happens only when
the count is positive. -/
theorem C10_no_div_by_zero (samples : Nat) (raw : Nat → Nat) :
    Drivers.measureDistanceAvgCm 0 raw = Drivers.measureDistanceAvgCm 1 raw ∧
    ((Drivers.avgLoop raw (if samples = 0 then 1 else samples)).2 = 0 →
      Drivers.measureDistanceAvgCm samples raw = -1) ∧
    (0 < (Drivers.avgLoop raw (if samples = 0 then 1 else samples)).2 →
      Drivers.measureDistanceAvgCm samples raw =
        (Drivers.avgLoop raw (if samples = 0 then 1 else samples)).1 /
          ((Drivers.avgLoop raw (if samples = 0 then 1 else samples)).2 : ℚ)) := by
  refine ⟨rfl, ?_, ?_⟩
  · intro h
    simp only [Drivers.measureDistanceAvgCm]
    rw [if_pos h]
  · intro h
    simp only [Drivers.measureDistanceAvgCm]
    rw [if_neg (Nat.pos_iff_ne_zero.mp h)]

/-- Witness for C10_no_div_by_zero: with one in-range sample the
average is the sample itself divided by a count of 1. -/
theorem C10_no_div_by_zero_witness :
    Drivers.measureDistanceAvgCm 1 (fun _ => 4000) =
      (Drivers.avgLoop (fun _ => 4000) (if (1 : Nat) = 0 then 1 else 1)).1 /
        ((Drivers.avgLoop (fun _ => 4000) (if (1 : Nat) = 0 then 1 else 1)).2 : ℚ) :=
  (C10_no_div_by_zero 1 (fun _ => 4000)).2.2 (by
    norm_num [Drivers.avgLoop, Drivers.measureDistanceCm, Drivers.SOUND_SPEED_CM_PER_US])

namespace App

/-- Truncation toward zero, the semantics of the C cast (int8_t) applied
to a float (the cast operand always lies in [-1, 100] here, so it is in
range of int8_t). -/
def truncToward0 (q : ℚ) : ℤ := if q < 0 then -⌊-q⌋ else ⌊q⌋

/-- Embeds SmartWasteApp::calculateFillLevel (smart_waste_app.cpp:282-298):
negative distance returns -1; otherwise (height - distance) / height * 100
is clamped below by 0, then above by 100, then cast to int8_t. -/
def calculateFillLevel (height distanceCm : ℚ) : ℤ :=
  if distanceCm < 0 then -1
  else
    truncToward0
      (if ((height - distanceCm) / height) * 100 < 0 then 0
       else if ((height - distanceCm) / height) * 100 > 100 then 100
       else ((height - distanceCm) / height) * 100)

end App

namespace SpecModel

/-- Follows the claim wording for the conversion: fill_pct =
clamp(0, 100, round((height - distance) / height * 100)), with
distance == INVALID mapped to -1. -/
def specFillLevel (height distanceCm : ℚ) : ℤ :=
  if distanceCm < 0 then -1
  else min 100 (max 0 (round (((height - distanceCm) / height) * 100)))

end SpecModel

/-- C2: the claim says calculateFillLevel returns exactly
round((H - d)/H * 100).  The code truncates the float toward zero
rather than rounding: at H = 120, d = 59 the exact value is 50.8333...,
so round gives 51 but the code returns 50. -/
theorem C2_counterexample :
    App.calculateFillLevel 120 59 = 50 ∧
    round ((((120 : ℚ) - 59) / 120) * 100) = 51 ∧
    SpecModel.specFillLevel 120 59 = 51 ∧
    App.calculateFillLevel 120 59 ≠ SpecModel.specFillLevel 120 59 := by
  have hval : ((((120 : ℚ) - 59) / 120) * 100) = 305 / 6 := by norm_num
  have hround : round ((305 : ℚ) / 6) = 51 := by
    norm_num [round_eq, Int.floor_eq_iff]
  have hfloor : (⌊(305 / 6 : ℚ)⌋ : ℤ) = 50 := by
    norm_num [Int.floor_eq_iff]
  have hcode : App.calculateFillLevel 120 59 = 50 := by
    rw [App.calculateFillLevel, if_neg (by norm_num)]
    rw [hval]
    rw [if_neg (by norm_num), if_neg (by norm_num)]
    rw [App.truncToward0, if_neg (by norm_num)]
    exact hfloor
  have hspec : SpecModel.specFillLevel 120 59 = 51 := by
    rw [SpecModel.specFillLevel, if_neg (by norm_num)]
    rw [hval, hround]
    norm_num
  exact ⟨hcode, by rw [hval]; exact hround, hspec, by rw [hcode, hspec]; norm_num⟩

/-- C2 (amended): for 0 ≤ d ≤ H (H > 0) the code returns the
TRUNCATION (floor, as the value is nonnegative) of (H - d)/H * 100,
not its rounding; the result lies in [0, 100]; for d > H the result is
clamped to 0; and for any negative d (the INVALID sentinel -1 included)
the result is exactly -1, never 0. -/
theorem C2_amended_fillLevel (H d : ℚ) (hH : 0 < H) :
    (0 ≤ d → d ≤ H →
      App.calculateFillLevel H d = ⌊((H - d) / H) * 100⌋ ∧
      0 ≤ App.calculateFillLevel H d ∧ App.calculateFillLevel H d ≤ 100) ∧
    (H < d → App.calculateFillLevel H d = 0) ∧
    (d < 0 → App.calculateFillLevel H d = -1) := by
  refine ⟨?_, ?_, ?_⟩
  · intro h0 hle
    have hraw0 : 0 ≤ ((H - d) / H) * 100 := by
      have : 0 ≤ (H - d) / H := div_nonneg (by linarith) (le_of_lt hH)
      linarith
    have hraw100 : ((H - d) / H) * 100 ≤ 100 := by
      have h1 : (H - d) / H ≤ 1 := by
        rw [div_le_one hH]; linarith
      linarith
    have hnn : ¬ (d < 0) := not_lt.mpr h0
    have hc1 : ¬ (((H - d) / H) * 100 < 0) := not_lt.mpr hraw0
    have hc2 : ¬ (((H - d) / H) * 100 > 100) := not_lt.mpr hraw100
    have hcode : App.calculateFillLevel H d = ⌊((H - d) / H) * 100⌋ := by
      rw [App.calculateFillLevel, if_neg hnn, if_neg hc1, if_neg hc2,
        App.truncToward0, if_neg hc1]
    refine ⟨hcode, ?_, ?_⟩
    · rw [hcode]
      exact Int.floor_nonneg.mpr hraw0
    · rw [hcode]
      have := Int.floor_le_floor (α := ℚ) hraw100
      simpa using this
  · intro hlt
    have hnn : ¬ (d < 0) := not_lt.mpr (by linarith)
    have hraw : ((H - d) / H) * 100 < 0 := by
      have : (H - d) / H < 0 := div_neg_of_neg_of_pos (by linarith) hH
      linarith
    rw [App.calculateFillLevel, if_neg hnn, if_pos hraw]
    rw [App.truncToward0, if_neg (by norm_num)]
    norm_num
  · intro hneg
    rw [App.calculateFillLevel, if_pos hneg]

/-- Witness for C2_amended_fillLevel at the spec scenario: 60 cm on a
120 cm bin. -/
theorem C2_amended_fillLevel_witness :
    App.calculateFillLevel 120 60 = ⌊(((120 : ℚ) - 60) / 120) * 100⌋ ∧
    0 ≤ App.calculateFillLevel 120 60 ∧ App.calculateFillLevel 120 60 ≤ 100 :=
  (C2_amended_fillLevel 120 60 (by norm_num)).1 (by norm_num) (by norm_num)

namespace App

/-- Embeds enum class AppState (smart_waste_app.h). -/
inductive AppState where
  | INIT
  | IDLE
  | READING_SENSORS
  | PUBLISHING
  | ERROR
  | SLEEP
deriving DecidableEq

/-- Embeds struct SensorReadings (smart_waste_app.h). -/
structure SensorReadings where
  distanceCm : ℚ
  fillLevel : ℤ
  latitude : ℚ
  longitude : ℚ
  batteryLevel : ℤ
  gpsValid : Bool
  timestamp : Nat
deriving DecidableEq

/-- The SmartWasteApp fields the control loop reads and writes
(smart_waste_app.h private section). -/
structure AppSt where
  state : AppState
  lastReadings : SensorReadings
  lastPublishTime : Nat
  publishInterval : Nat
  trashCanHeight : ℚ
  initialized : Bool
  firstRun : Bool
deriving DecidableEq

/-- Per-tick environment: the millis() clock and the outcomes of the
hardware/network collaborators consulted during the tick. -/
structure TickEnv where
  now : Nat
  dist : HAL.DistanceReading
  batteryLevel : ℤ
  publishOk : Bool
  modemReady : Bool
  gprsConnected : Bool

/-- PUBLISH_INTERVAL_MS from config.h. -/
def PUBLISH_INTERVAL_MS : Nat := 1000

/-- TRASH_CAN_HEIGHT_CM from config.h (120.0f). -/
def TRASH_CAN_HEIGHT_CM : ℚ := 120

/-- DEFAULT_LATITUDE from config.h (24.7136f). -/
def DEFAULT_LATITUDE : ℚ := 247136 / 10000

/-- DEFAULT_LONGITUDE from config.h (46.6753f). -/
def DEFAULT_LONGITUDE : ℚ := 466753 / 10000

/-- DEVICE_ID from config.h. -/
def DEVICE_ID : String := "smartwaste_001"

/-- All-zero readings, from the constructor's memset
(smart_waste_app.cpp:32). -/
def zeroReadings : SensorReadings :=
  { distanceCm := 0, fillLevel := 0, latitude := 0, longitude := 0,
    batteryLevel := 0, gpsValid := false, timestamp := 0 }

/-- The constructor state (smart_waste_app.cpp:12-33). -/
def initialState : AppSt :=
  { state := AppState.INIT, lastReadings := zeroReadings, lastPublishTime := 0,
    publishInterval := PUBLISH_INTERVAL_MS, trashCanHeight := TRASH_CAN_HEIGHT_CM,
    initialized := false, firstRun := true }

/-- Embeds SmartWasteApp::init (smart_waste_app.cpp:35-67); hwOk and
netOk are the outcomes of initHardware and initNetwork. -/
def initApp (hwOk netOk : Bool) (now : Nat) (s : AppSt) : AppSt :=
  if hwOk = false then { s with state := AppState.ERROR }
  else if netOk = false then { s with state := AppState.ERROR }
  else { s with initialized := true, state := AppState.IDLE, lastPublishTime := now % U32 }

/-- Embeds SmartWasteApp::shouldPublish (smart_waste_app.cpp:324-332). -/
def shouldPublish (s : AppSt) (now : Nat) : Bool :=
  if s.firstRun then true
  else decide (s.publishInterval ≤ u32sub now s.lastPublishTime)

/-- Embeds SmartWasteApp::forcePublish (smart_waste_app.cpp:212-214). -/
def forcePublish (s : AppSt) : AppSt := { s with lastPublishTime := 0 }

/-- Embeds SmartWasteApp::setPublishInterval (smart_waste_app.cpp:216-218);
the uint32_t parameter is reduced mod 2^32. -/
def setPublishInterval (s : AppSt) (intervalMs : Nat) : AppSt :=
  { s with publishInterval := intervalMs % U32 }

/-- Embeds SmartWasteApp::readSensors (smart_waste_app.cpp:224-280) with
GPS disabled (GPS_ENABLED is not defined in config.h, so the fixed
coordinates branch is compiled): an invalid distance reading publishes
the -1 sentinels; a valid one stores the distance and its fill level. -/
def readSensors (env : TickEnv) (s : AppSt) : SensorReadings :=
  if env.dist.valid then
    { distanceCm := env.dist.distanceCm,
      fillLevel := calculateFillLevel s.trashCanHeight env.dist.distanceCm,
      latitude := DEFAULT_LATITUDE, longitude := DEFAULT_LONGITUDE,
      batteryLevel := env.batteryLevel, gpsValid := false, timestamp := env.now }
  else
    { distanceCm := -1, fillLevel := -1,
      latitude := DEFAULT_LATITUDE, longitude := DEFAULT_LONGITUDE,
      batteryLevel := env.batteryLevel, gpsValid := false, timestamp := env.now }

/-- Embeds one invocation of SmartWasteApp::run (smart_waste_app.cpp:143-202):
the early return when not initialized, then the state switch.  The
PUBLISHING case attempts exactly one publish whose outcome is
env.publishOk; on success it records the publish time and clears
firstRun.  The ERROR case returns to IDLE exactly when the modem and
GPRS recovery checks both pass. -/
def tick (env : TickEnv) (s : AppSt) : AppSt :=
  if s.initialized = false then s
  else
    match s.state with
    | AppState.IDLE =>
      if shouldPublish s env.now then { s with state := AppState.READING_SENSORS } else s
    | AppState.READING_SENSORS =>
      { s with lastReadings := readSensors env s, state := AppState.PUBLISHING }
    | AppState.PUBLISHING =>
      if env.publishOk then
        { s with lastPublishTime := env.now % U32, firstRun := false,
                 state := AppState.IDLE }
      else { s with state := AppState.IDLE }
    | AppState.ERROR =>
      if env.modemReady && env.gprsConnected then { s with state := AppState.IDLE } else s
    | AppState.SLEEP => s
    | AppState.INIT => { s with state := AppState.IDLE }

/-- Iterated ticks driven by an environment stream. -/
def runTicks (e : Nat → TickEnv) (s : AppSt) : Nat → AppSt
  | 0 => s
  | n + 1 => tick (e n) (runTicks e s n)

/-- Number of publish attempts performed during the first n ticks: a
tick performs exactly one publish attempt iff it starts in PUBLISHING
(and the app is initialized). -/
def attempts (e : Nat → TickEnv) (s : AppSt) : Nat → Nat
  | 0 => 0
  | n + 1 =>
    attempts e s n +
      (if (runTicks e s n).initialized = true ∧
          (runTicks e s n).state = AppState.PUBLISHING then 1 else 0)

theorem runTicks_succ (e : Nat → TickEnv) (s : AppSt) (n : Nat) :
    runTicks e s (n + 1) = tick (e n) (runTicks e s n) := rfl

theorem attempts_succ (e : Nat → TickEnv) (s : AppSt) (n : Nat) :
    attempts e s (n + 1) =
      attempts e s n +
        (if (runTicks e s n).initialized = true ∧
            (runTicks e s n).state = AppState.PUBLISHING then 1 else 0) := rfl

end App

theorem tick_firstRun_iff (env : App.TickEnv) (s : App.AppSt) :
    (App.tick env s).firstRun = false ↔
      (s.firstRun = false ∨
        (s.initialized = true ∧ s.state = App.AppState.PUBLISHING ∧
          env.publishOk = true)) := by
  rcases hi : s.initialized with _ | _
  · simp [App.tick, hi]
  · cases hst : s.state
    all_goals simp only [App.tick, hi, hst, Bool.true_eq_false, if_false]
    · simp
    · by_cases hp : App.shouldPublish s env.now = true
      · simp [hp]
      · simp [Bool.not_eq_true] at hp
        simp [hp]
    · simp
    · rcases ho : env.publishOk with _ | _
      · simp [ho]
      · simp [ho]
    · split <;> simp
    · simp

theorem cycle_step (e0 e1 e2 : App.TickEnv) (s : App.AppSt)
    (hst : s.state = App.AppState.IDLE) (hi : s.initialized = true)
    (hf : s.firstRun = true) :
    (App.tick e0 s).state = App.AppState.READING_SENSORS ∧
    (App.tick e0 s).firstRun = true ∧
    (App.tick e0 s).initialized = true ∧
    (App.tick e1 (App.tick e0 s)).state = App.AppState.PUBLISHING ∧
    (App.tick e1 (App.tick e0 s)).firstRun = true ∧
    (App.tick e1 (App.tick e0 s)).initialized = true ∧
    (App.tick e2 (App.tick e1 (App.tick e0 s))).state = App.AppState.IDLE ∧
    (App.tick e2 (App.tick e1 (App.tick e0 s))).initialized = true ∧
    (App.tick e2 (App.tick e1 (App.tick e0 s))).firstRun = !e2.publishOk := by
  have hsp : App.shouldPublish s e0.now = true := by
    simp [App.shouldPublish, hf]
  have h1 : App.tick e0 s = { s with state := App.AppState.READING_SENSORS } := by
    simp [App.tick, hi, hst, hsp]
  rw [h1]
  have h2 : App.tick e1 { s with state := App.AppState.READING_SENSORS } =
      { s with state := App.AppState.PUBLISHING,
               lastReadings :=
                 App.readSensors e1 { s with state := App.AppState.READING_SENSORS } } := by
    simp [App.tick, hi]
  rw [h2]
  rcases ho : e2.publishOk with _ | _
  · refine ⟨rfl, hf, hi, rfl, hf, hi, ?_, ?_, ?_⟩
    all_goals simp [App.tick, hi, ho, hf]
  · refine ⟨rfl, hf, hi, rfl, hf, hi, ?_, ?_, ?_⟩
    all_goals simp [App.tick, hi, ho, hf]

theorem fail_phase (e : Nat → App.TickEnv) (s : App.AppSt)
    (hst : s.state = App.AppState.IDLE) (hi : s.initialized = true)
    (hf : s.firstRun = true) :
    ∀ j, (∀ k, k < j → (e (3 * k + 2)).publishOk = false) →
      (App.runTicks e s (3 * j)).state = App.AppState.IDLE ∧
      (App.runTicks e s (3 * j)).initialized = true ∧
      (App.runTicks e s (3 * j)).firstRun = true ∧
      App.attempts e s (3 * j) = j ∧
      (∀ m, m ≤ 3 * j → (App.runTicks e s m).firstRun = true) := by
  intro j
  induction j with
  | zero =>
    intro _
    refine ⟨hst, hi, hf, rfl, ?_⟩
    intro m hm
    have : m = 0 := Nat.le_zero.mp (by simpa using hm)
    simpa [this, App.runTicks] using hf
  | succ j ih =>
    intro hfail
    obtain ⟨pst, pin, pfr, patt, pall⟩ := ih (fun k hk => hfail k (Nat.lt_succ_of_lt hk))
    obtain ⟨a1, a2, a3, b1, b2, b3, c1, c2, c3⟩ :=
      cycle_step (e (3 * j)) (e (3 * j + 1)) (e (3 * j + 2)) (App.runTicks e s (3 * j))
        pst pin pfr
    have e1 : App.runTicks e s (3 * j + 1) = App.tick (e (3 * j)) (App.runTicks e s (3 * j)) := rfl
    have e2 : App.runTicks e s (3 * j + 2) =
        App.tick (e (3 * j + 1)) (App.runTicks e s (3 * j + 1)) := rfl
    have e3 : App.runTicks e s (3 * j + 3) =
        App.tick (e (3 * j + 2)) (App.runTicks e s (3 * j + 2)) := rfl
    have h3 : 3 * (j + 1) = 3 * j + 3 := by ring
    have hok : (e (3 * j + 2)).publishOk = false := hfail j (Nat.lt_succ_self j)
    have hattst : App.attempts e s (3 * j + 3) = j + 1 := by
      rw [App.attempts_succ, App.attempts_succ, App.attempts_succ, patt]
      rw [e2, e1] at *
      simp [pst, pin, a1, a2, a3, b1, b2, b3]
    refine ⟨?_, ?_, ?_, ?_, ?_⟩
    · rw [h3, e3, e2, e1]; exact c1
    · rw [h3, e3, e2, e1]; exact c2
    · rw [h3, e3, e2, e1, c3, hok]; rfl
    · rw [h3]; exact hattst
    · intro m hm
      rw [h3] at hm
      rcases Nat.lt_or_ge m (3 * j + 1) with hlt | hge
      · exact pall m (Nat.lt_succ_iff.mp hlt)
      · rcases Nat.eq_or_lt_of_le hge with heq | hlt1
        · cases heq
          rw [e1]; exact a2
        · rcases Nat.eq_or_lt_of_le (Nat.succ_le_of_lt hlt1) with hexq | hlt2
          · cases hexq
            rw [e2, e1]; exact b2
          · have hm3 : m = 3 * j + 3 := by omega
            subst hm3
            rw [e3, e2, e1, c3, hok]; rfl

/-- C3: the first-run flag is true from startup (constructor, and still
true after init), is cleared by a tick only when that tick's publish
attempt succeeds, and in a run whose first N publish attempts fail and
whose (N+1)-st succeeds, exactly N+1 publish attempts happen across the
3(N+1) ticks it takes, the flag staying true at every point before the
successful attempt and false after it. -/
theorem C3_firstRun (N : Nat) (e : Nat → App.TickEnv) (s0 : App.AppSt)
    (hst : s0.state = App.AppState.IDLE) (hi : s0.initialized = true)
    (hf : s0.firstRun = true)
    (he : ∀ k, k ≤ N → (e (3 * k + 2)).publishOk = decide (k = N)) :
    App.initialState.firstRun = true ∧
    (∀ env s, (App.tick env s).firstRun = false ↔
      (s.firstRun = false ∨
        (s.initialized = true ∧ s.state = App.AppState.PUBLISHING ∧
          env.publishOk = true))) ∧
    App.attempts e s0 (3 * (N + 1)) = N + 1 ∧
    (App.runTicks e s0 (3 * (N + 1))).firstRun = false ∧
    (∀ m, m < 3 * (N + 1) → (App.runTicks e s0 m).firstRun = true) := by
  have hfails : ∀ k, k < N → (e (3 * k + 2)).publishOk = false := by
    intro k hk
    have := he k (Nat.le_of_lt hk)
    simpa [Nat.ne_of_lt hk] using this
  obtain ⟨pst, pin, pfr, patt, pall⟩ := fail_phase e s0 hst hi hf N hfails
  obtain ⟨a1, a2, a3, b1, b2, b3, c1, c2, c3⟩ :=
    cycle_step (e (3 * N)) (e (3 * N + 1)) (e (3 * N + 2)) (App.runTicks e s0 (3 * N))
      pst pin pfr
  have e1 : App.runTicks e s0 (3 * N + 1) =
      App.tick (e (3 * N)) (App.runTicks e s0 (3 * N)) := rfl
  have e2 : App.runTicks e s0 (3 * N + 2) =
      App.tick (e (3 * N + 1)) (App.runTicks e s0 (3 * N + 1)) := rfl
  have e3 : App.runTicks e s0 (3 * N + 3) =
      App.tick (e (3 * N + 2)) (App.runTicks e s0 (3 * N + 2)) := rfl
  have h3 : 3 * (N + 1) = 3 * N + 3 := by ring
  have hok : (e (3 * N + 2)).publishOk = true := by
    simpa using he N (Nat.le_refl N)
  refine ⟨rfl, tick_firstRun_iff, ?_, ?_, ?_⟩
  · rw [h3, App.attempts_succ, App.attempts_succ, App.attempts_succ, patt]
    rw [e2, e1]
    simp [pst, pin, a1, a2, a3, b1, b2, b3]
  · rw [h3, e3, e2, e1, c3, hok]
    rfl
  · intro m hm
    rw [h3] at hm
    rcases Nat.lt_or_ge m (3 * N + 1) with hlt | hge
    · exact pall m (Nat.lt_succ_iff.mp hlt)
    · rcases Nat.eq_or_lt_of_le hge with heq | hlt1
      · cases heq
        rw [e1]; exact a2
      · have hm2 : m = 3 * N + 2 := by omega
        subst hm2
        rw [e2, e1]; exact b2

/-- Concrete environment stream for the C3 witness: the publish attempt
of the first cycle succeeds immediately (N = 0). -/
def envStreamC3 : Nat → App.TickEnv := fun _ =>
  { now := 0, dist := ⟨false, -1, 0⟩, batteryLevel := 85, publishOk := true,
    modemReady := true, gprsConnected := true }

/-- Initial state for the C3 witness: just after a successful init. -/
def s0C3 : App.AppSt :=
  { App.initialState with state := App.AppState.IDLE, initialized := true }

/-- Witness for C3_firstRun at N = 0: the single successful attempt is
counted once and clears the flag. -/
theorem C3_firstRun_witness :
    App.attempts envStreamC3 s0C3 3 = 1 ∧
    (App.runTicks envStreamC3 s0C3 3).firstRun = false :=
  ⟨(C3_firstRun 0 envStreamC3 s0C3 rfl rfl rfl
      (by intro k hk; cases Nat.le_zero.mp hk; rfl)).2.2.1,
   (C3_firstRun 0 envStreamC3 s0C3 rfl rfl rfl
      (by intro k hk; cases Nat.le_zero.mp hk; rfl)).2.2.2.1⟩

/-- C4: shouldPublish is true whenever the first-run flag is set;
otherwise it is true iff the uint32 elapsed time since the last
successful publish reaches the configured interval; immediately after a
successful publish tick (elapsed 0, flag cleared, positive interval) it
is false, and it remains false while the elapsed time is below the
interval. -/
theorem C4_shouldPublish (s : App.AppSt) (now : Nat) (env : App.TickEnv) :
    (s.firstRun = true → App.shouldPublish s now = true) ∧
    (s.firstRun = false →
      (App.shouldPublish s now = true ↔
        s.publishInterval ≤ u32sub now s.lastPublishTime)) ∧
    (s.initialized = true → s.state = App.AppState.PUBLISHING →
      env.publishOk = true → 0 < s.publishInterval →
      App.shouldPublish (App.tick env s) env.now = false) ∧
    (s.firstRun = false → u32sub now s.lastPublishTime < s.publishInterval →
      App.shouldPublish s now = false) := by
  refine ⟨?_, ?_, ?_, ?_⟩
  · intro hf; simp [App.shouldPublish, hf]
  · intro hf; simp [App.shouldPublish, hf]
  · intro hi hst ho hpos
    have htick : App.tick env s =
        { s with lastPublishTime := env.now % U32, firstRun := false,
                 state := App.AppState.IDLE } := by
      simp [App.tick, hi, hst, ho]
    rw [htick]
    simp only [App.shouldPublish]
    rw [if_neg (by simp)]
    simp only [u32sub_self_mod]
    simpa using Nat.not_le_of_lt hpos
  · intro hf hlt
    simp only [App.shouldPublish, hf]
    rw [if_neg (by simp)]
    simpa using Nat.not_le_of_lt hlt

/-- Witness for C4_shouldPublish: after a successful publish tick at
time 5000 with a 1000 ms interval, shouldPublish is false at 5000 and
stays false at 5999. -/
theorem C4_shouldPublish_witness :
    App.shouldPublish
      (App.tick
        { now := 5000, dist := ⟨false, -1, 5000⟩, batteryLevel := 85,
          publishOk := true, modemReady := true, gprsConnected := true }
        { s0C3 with state := App.AppState.PUBLISHING })
      5000 = false :=
  (C4_shouldPublish { s0C3 with state := App.AppState.PUBLISHING } 5000
    { now := 5000, dist := ⟨false, -1, 5000⟩, batteryLevel := 85,
      publishOk := true, modemReady := true, gprsConnected := true }).2.2.1
    rfl rfl rfl (by norm_num [s0C3, App.initialState, App.PUBLISH_INTERVAL_MS])

theorem u32sub_zero_right (a : Nat) : u32sub a 0 = a % U32 := by
  simp only [u32sub, U32]
  omega

/-- Concrete cadence state for the C9 counterexample: steady-state
(first run already over), default 1000 ms interval, device up for
500 ms. -/
def s9 : App.AppSt :=
  { state := App.AppState.IDLE, lastReadings := App.zeroReadings,
    lastPublishTime := 400, publishInterval := 1000,
    trashCanHeight := 120, initialized := true, firstRun := false }

/-- Tick environment for the C9 counterexample, clock at 500 ms. -/
def env9 : App.TickEnv :=
  { now := 500, dist := ⟨false, -1, 500⟩, batteryLevel := 85,
    publishOk := true, modemReady := true, gprsConnected := true }

/-- C9: the claim says that after forcePublish the next tick's
shouldPublish returns true for every prior cadence state and every
current clock value.  forcePublish only zeroes lastPublishTime, so with
the clock at 500 ms and the default 1000 ms interval the elapsed time
500 - 0 is still below the interval: shouldPublish is false and the
next tick stays in IDLE. -/
theorem C9_counterexample :
    App.shouldPublish (App.forcePublish s9) 500 = false ∧
    App.tick env9 (App.forcePublish s9) = App.forcePublish s9 ∧
    (App.tick env9 (App.forcePublish s9)).state = App.AppState.IDLE := by
  have h1 : App.shouldPublish (App.forcePublish s9) 500 = false := by
    norm_num [App.shouldPublish, App.forcePublish, s9, u32sub, U32]
  have h2 : App.tick env9 (App.forcePublish s9) = App.forcePublish s9 := by
    norm_num [App.tick, App.forcePublish, s9, env9, App.shouldPublish, u32sub, U32]
  exact ⟨h1, h2, by rw [h2]; rfl⟩

/-- C9 (amended): forcePublish zeroes lastPublishTime, so the next
tick's shouldPublish is true iff the first-run flag is set or the
current clock value (mod 2^32) has reached the configured interval — in
particular it is true whenever now mod 2^32 ≥ interval, but false in
the wraparound-adjusted window where now mod 2^32 < interval (e.g.
within the first interval after boot). -/
theorem C9_amended_forcePublish (s : App.AppSt) (now : Nat) :
    (App.forcePublish s).lastPublishTime = 0 ∧
    App.shouldPublish (App.forcePublish s) now =
      (s.firstRun || decide (s.publishInterval ≤ now % U32)) ∧
    (s.publishInterval ≤ now % U32 →
      App.shouldPublish (App.forcePublish s) now = true) := by
  have hgen : App.shouldPublish (App.forcePublish s) now =
      (s.firstRun || decide (s.publishInterval ≤ now % U32)) := by
    simp only [App.shouldPublish, App.forcePublish]
    rcases hf : s.firstRun with _ | _
    · rw [if_neg (by simp [hf])]
      simp only [u32sub_zero_right, hf]
      simp
    · rw [if_pos (by simp [hf])]
      simp [hf]
  refine ⟨rfl, hgen, ?_⟩
  intro h
  rw [hgen]
  simp [h]

/-- Witness for C9_amended_forcePublish: with the clock at 5000 ms and
a 1000 ms interval, forcePublish does make the next shouldPublish
true. -/
theorem C9_amended_forcePublish_witness :
    App.shouldPublish (App.forcePublish s9) 5000 = true :=
  (C9_amended_forcePublish s9 5000).2.2 (by norm_num [s9, U32])

namespace Network

/-- Embeds enum class GprsState (gprs_manager.h). -/
inductive GprsState where
  | DISCONNECTED
  | CONNECTING
  | CONNECTED
  | ERROR
deriving DecidableEq

/-- Embeds enum class MqttState (mqtt_service.h). -/
inductive MqttState where
  | DISCONNECTED
  | CONNECTING
  | CONNECTED
  | ERROR
deriving DecidableEq

/-- Environment oracle for one network-layer call: the millis() clock
and the answers of the external modem (TinyGsm) and MQTT client
(PubSubClient) collaborators during that call. -/
structure NetEnv where
  now : Nat
  modemNetworkConnected : Bool
  waitForNetworkOk : Bool
  modemNetworkConnectedAfterWait : Bool
  modemGprsConnected : Bool
  gprsConnectOk : Bool
  mqttClientConnected : Bool
  mqttConnectOk : Bool

/-- The GprsManager state the embedded methods touch (gprs_manager.h). -/
structure GprsSt where
  state : GprsState
deriving DecidableEq

/-- The MqttService state the embedded methods touch (mqtt_service.h):
hasClient records whether init() has allocated the PubSubClient. -/
structure MqttSt where
  state : MqttState
  lastReconnectAttempt : Nat
  hasClient : Bool
deriving DecidableEq

/-- Instrumentation: which connect operations a call invoked on the
collaborators (modem.gprsConnect for the transport layer, the
PubSubClient connect for the session layer). -/
structure Calls where
  gprsConnectCalled : Bool
  mqttConnectCalled : Bool
deriving DecidableEq

/-- MQTT_RECONNECT_DELAY_MS from config.h (10 seconds). -/
def MQTT_RECONNECT_DELAY_MS : Nat := 10000

namespace GprsManager

/-- Embeds GprsManager::isConnected (gprs_manager.cpp:87-101): a cached
CONNECTED state is re-verified against modem.isGprsConnected(), and
demoted to DISCONNECTED when the modem says otherwise. -/
def isConnected (env : NetEnv) (g : GprsSt) : Bool × GprsSt :=
  if g.state ≠ GprsState.CONNECTED then (false, g)
  else if env.modemGprsConnected then (true, g)
  else (false, { g with state := GprsState.DISCONNECTED })

/-- Embeds GprsManager::waitForNetwork (gprs_manager.cpp:107-124). -/
def waitForNetwork (env : NetEnv) : Bool :=
  env.waitForNetworkOk && env.modemNetworkConnectedAfterWait

/-- Embeds GprsManager::ensureConnection (gprs_manager.cpp:143-171).
The third component records whether modem.gprsConnect was invoked. -/
def ensureConnection (env : NetEnv) (g : GprsSt) : Bool × GprsSt × Bool :=
  if (isConnected env g).1 then (true, (isConnected env g).2, false)
  else
    if env.modemNetworkConnected = false ∧ waitForNetwork env = false then
      (false, (isConnected env g).2, false)
    else if env.modemGprsConnected = false ∧ env.gprsConnectOk = false then
      (false, { (isConnected env g).2 with state := GprsState.ERROR }, true)
    else
      (true, { (isConnected env g).2 with state := GprsState.CONNECTED },
        !env.modemGprsConnected)

end GprsManager

namespace MqttService

/-- Embeds MqttService::isConnected (mqtt_service.cpp:89-99): without a
client it reports false; otherwise it re-asks the PubSubClient and
demotes a cached CONNECTED state when the client says otherwise.  It
never consults the transport manager. -/
def isConnected (env : NetEnv) (m : MqttSt) : Bool × MqttSt :=
  if m.hasClient = false then (false, m)
  else if env.mqttClientConnected = false ∧ m.state = MqttState.CONNECTED then
    (false, { m with state := MqttState.DISCONNECTED })
  else (env.mqttClientConnected, m)

/-- Embeds MqttService::connect (mqtt_service.cpp:49-77): refuses (state
ERROR) when the transport manager does not report connected; only then
is the PubSubClient connect invoked.  Components: result, MqttSt,
GprsSt (isConnected may demote it), calls. -/
def connect (env : NetEnv) (g : GprsSt) (m : MqttSt) : Bool × MqttSt × GprsSt × Calls :=
  if (GprsManager.isConnected env g).1 = false then
    (false, { m with state := MqttState.ERROR }, (GprsManager.isConnected env g).2,
      ⟨false, false⟩)
  else if env.mqttConnectOk then
    (true, { m with state := MqttState.CONNECTED }, (GprsManager.isConnected env g).2,
      ⟨false, true⟩)
  else
    (false, { m with state := MqttState.ERROR }, (GprsManager.isConnected env g).2,
      ⟨false, true⟩)

/-- Embeds MqttService::ensureConnection (mqtt_service.cpp:161-183):
connected short-circuits to true; a call within
MQTT_RECONNECT_DELAY_MS of the last reconnect attempt short-circuits to
false without invoking anything; otherwise the attempt time is
recorded, the transport is re-ensured first, and only on its success is
the session connect tried. -/
def ensureConnection (env : NetEnv) (g : GprsSt) (m : MqttSt) :
    Bool × MqttSt × GprsSt × Calls :=
  if (isConnected env m).1 then (true, (isConnected env m).2, g, ⟨false, false⟩)
  else
    if u32sub env.now (isConnected env m).2.lastReconnectAttempt <
        MQTT_RECONNECT_DELAY_MS then
      (false, (isConnected env m).2, g, ⟨false, false⟩)
    else
      if (GprsManager.ensureConnection env g).1 = false then
        (false, { (isConnected env m).2 with lastReconnectAttempt := env.now % U32 },
          (GprsManager.ensureConnection env g).2.1,
          ⟨(GprsManager.ensureConnection env g).2.2, false⟩)
      else
        ((connect env (GprsManager.ensureConnection env g).2.1
            { (isConnected env m).2 with lastReconnectAttempt := env.now % U32 }).1,
         (connect env (GprsManager.ensureConnection env g).2.1
            { (isConnected env m).2 with lastReconnectAttempt := env.now % U32 }).2.1,
         (connect env (GprsManager.ensureConnection env g).2.1
            { (isConnected env m).2 with lastReconnectAttempt := env.now % U32 }).2.2.1,
         ⟨(GprsManager.ensureConnection env g).2.2,
          (connect env (GprsManager.ensureConnection env g).2.1
            { (isConnected env m).2 with lastReconnectAttempt := env.now % U32 }).2.2.2.mqttConnectCalled⟩)

end MqttService

end Network

theorem mqtt_isConnected_preserves (env : Network.NetEnv) (m : Network.MqttSt) :
    (Network.MqttService.isConnected env m).2.lastReconnectAttempt =
      m.lastReconnectAttempt ∧
    (Network.MqttService.isConnected env m).2.hasClient = m.hasClient := by
  unfold Network.MqttService.isConnected
  split
  · exact ⟨rfl, rfl⟩
  · split
    · exact ⟨rfl, rfl⟩
    · exact ⟨rfl, rfl⟩

/-- Environment for the C5 counterexample: the radio link has dropped
(the modem reports GPRS down) while the MQTT client object still
reports its session as connected. -/
def envC5 : Network.NetEnv :=
  { now := 60000, modemNetworkConnected := false, waitForNetworkOk := false,
    modemNetworkConnectedAfterWait := false, modemGprsConnected := false,
    gprsConnectOk := false, mqttClientConnected := true, mqttConnectOk := false }

/-- Transport manager state for the C5 counterexample: CONNECTED cache
from a successful boot. -/
def gC5 : Network.GprsSt := { state := Network.GprsState.CONNECTED }

/-- Session service state for the C5 counterexample: CONNECTED cache
from a successful boot, client allocated. -/
def mC5 : Network.MqttSt :=
  { state := Network.MqttState.CONNECTED, lastReconnectAttempt := 0, hasClient := true }

/-- C5: the claim says the session layer is never reported connected
while the transport layer is disconnected, every query verifying
transport liveness first.  MqttService::isConnected only asks the
PubSubClient: in this reachable post-boot state where the transport has
dropped, the session query reports true while the transport query
reports false (demoting itself to DISCONNECTED), and
MqttService::ensureConnection also returns true without invoking any
connect operation. -/
theorem C5_counterexample :
    (Network.MqttService.isConnected envC5 mC5).1 = true ∧
    (Network.GprsManager.isConnected envC5 gC5).1 = false ∧
    (Network.GprsManager.isConnected envC5 gC5).2.state =
      Network.GprsState.DISCONNECTED ∧
    (Network.MqttService.ensureConnection envC5 gC5 mC5).1 = true ∧
    (Network.MqttService.ensureConnection envC5 gC5 mC5).2.2.2 = ⟨false, false⟩ := by
  refine ⟨rfl, rfl, rfl, ?_, ?_⟩ <;>
    simp [Network.MqttService.ensureConnection, Network.MqttService.isConnected,
      envC5, gC5, mC5]

/-- C5 (amended): both session reconnect paths do verify the transport
first — MqttService::connect refuses with state ERROR and no session
connect attempt when the transport manager does not report connected,
and MqttService::ensureConnection invokes the session connect only
when GprsManager::ensureConnection has succeeded, returning false with
no session connect attempt when it fails.  The isConnected query,
however, reports the PubSubClient state without consulting the
transport. -/
theorem C5_amended_transport_guard (env : Network.NetEnv) (g : Network.GprsSt)
    (m : Network.MqttSt) :
    ((Network.GprsManager.isConnected env g).1 = false →
      (Network.MqttService.connect env g m).1 = false ∧
      (Network.MqttService.connect env g m).2.1.state = Network.MqttState.ERROR ∧
      (Network.MqttService.connect env g m).2.2.2.mqttConnectCalled = false) ∧
    ((Network.MqttService.connect env g m).1 = true →
      (Network.GprsManager.isConnected env g).1 = true) ∧
    ((Network.MqttService.ensureConnection env g m).2.2.2.mqttConnectCalled = true →
      (Network.GprsManager.ensureConnection env g).1 = true) ∧
    ((Network.MqttService.isConnected env m).1 = false →
      Network.MQTT_RECONNECT_DELAY_MS ≤ u32sub env.now m.lastReconnectAttempt →
      (Network.GprsManager.ensureConnection env g).1 = false →
      (Network.MqttService.ensureConnection env g m).1 = false ∧
      (Network.MqttService.ensureConnection env g m).2.2.2.mqttConnectCalled = false) := by
  have hpres := mqtt_isConnected_preserves env m
  refine ⟨?_, ?_, ?_, ?_⟩
  · intro hg
    unfold Network.MqttService.connect
    rw [if_pos hg]
    exact ⟨rfl, rfl, rfl⟩
  · intro hc
    by_cases hg : (Network.GprsManager.isConnected env g).1 = false
    · exfalso
      unfold Network.MqttService.connect at hc
      rw [if_pos hg] at hc
      exact Bool.false_ne_true hc
    · simpa using hg
  · intro hcall
    by_cases hge : (Network.GprsManager.ensureConnection env g).1 = false
    · exfalso
      unfold Network.MqttService.ensureConnection at hcall
      by_cases h1 : (Network.MqttService.isConnected env m).1 = true
      · rw [if_pos h1] at hcall
        exact Bool.false_ne_true hcall
      · rw [if_neg h1] at hcall
        by_cases h2 : u32sub env.now
            (Network.MqttService.isConnected env m).2.lastReconnectAttempt <
            Network.MQTT_RECONNECT_DELAY_MS
        · rw [if_pos h2] at hcall
          exact Bool.false_ne_true hcall
        · rw [if_neg h2, if_pos hge] at hcall
          exact Bool.false_ne_true hcall
    · simpa using hge
  · intro hnc hpast hge
    unfold Network.MqttService.ensureConnection
    rw [if_neg (by simp [hnc])]
    rw [if_neg (by rw [hpres.1]; exact Nat.not_lt_of_ge hpast)]
    rw [if_pos hge]
    exact ⟨rfl, rfl⟩

/-- Witness for C5_amended_transport_guard at the concrete C5 state:
with the transport down, connect refuses without a session attempt. -/
theorem C5_amended_transport_guard_witness :
    (Network.MqttService.connect envC5 gC5 mC5).1 = false ∧
    (Network.MqttService.connect envC5 gC5 mC5).2.1.state = Network.MqttState.ERROR ∧
    (Network.MqttService.connect envC5 gC5 mC5).2.2.2.mqttConnectCalled = false :=
  (C5_amended_transport_guard envC5 gC5 mC5).1 rfl

theorem mqtt_connect_preserves (env : Network.NetEnv) (g : Network.GprsSt)
    (m : Network.MqttSt) :
    (Network.MqttService.connect env g m).2.1.lastReconnectAttempt =
      m.lastReconnectAttempt ∧
    (Network.MqttService.connect env g m).2.1.hasClient = m.hasClient := by
  unfold Network.MqttService.connect
  split
  · exact ⟨rfl, rfl⟩
  · split
    · exact ⟨rfl, rfl⟩
    · exact ⟨rfl, rfl⟩

theorem mqtt_isConnected_false_of (env : Network.NetEnv) (m : Network.MqttSt)
    (h : env.mqttClientConnected = false) :
    (Network.MqttService.isConnected env m).1 = false := by
  unfold Network.MqttService.isConnected
  split
  · rfl
  · split
    · rfl
    · exact h

theorem mqtt_ensure_attempt_fields (env : Network.NetEnv) (g : Network.GprsSt)
    (m : Network.MqttSt)
    (hnc : (Network.MqttService.isConnected env m).1 = false)
    (hpast : Network.MQTT_RECONNECT_DELAY_MS ≤ u32sub env.now m.lastReconnectAttempt) :
    (Network.MqttService.ensureConnection env g m).2.1.lastReconnectAttempt =
      env.now % U32 ∧
    (Network.MqttService.ensureConnection env g m).2.1.hasClient = m.hasClient := by
  have hpres := mqtt_isConnected_preserves env m
  unfold Network.MqttService.ensureConnection
  rw [if_neg (by simp [hnc])]
  rw [if_neg (by rw [hpres.1]; exact Nat.not_lt_of_ge hpast)]
  by_cases hge : (Network.GprsManager.ensureConnection env g).1 = false
  · rw [if_pos hge]
    exact ⟨rfl, hpres.2⟩
  · rw [if_neg hge]
    have hcp := mqtt_connect_preserves env
      (Network.GprsManager.ensureConnection env g).2.1
      { (Network.MqttService.isConnected env m).2 with
          lastReconnectAttempt := env.now % U32 }
    exact ⟨hcp.1, by rw [hcp.2]; exact hpres.2⟩

theorem mqtt_ensure_dwell_shortcircuit (env : Network.NetEnv) (g : Network.GprsSt)
    (m : Network.MqttSt)
    (hnc : (Network.MqttService.isConnected env m).1 = false)
    (hin : u32sub env.now m.lastReconnectAttempt < Network.MQTT_RECONNECT_DELAY_MS) :
    Network.MqttService.ensureConnection env g m =
      (false, (Network.MqttService.isConnected env m).2, g, ⟨false, false⟩) := by
  have hpres := mqtt_isConnected_preserves env m
  unfold Network.MqttService.ensureConnection
  rw [if_neg (by simp [hnc]), if_pos (by rw [hpres.1]; exact hin)]

/-- C6: when a disconnected first ensureConnection call performs a
reconnect attempt (recording the attempt time), a second call made
while still disconnected within MQTT_RECONNECT_DELAY_MS of that
attempt returns false without invoking the transport connect or the
session connect, and leaves the transport state untouched. -/
theorem C6_dwell_window (env1 env2 : Network.NetEnv) (g : Network.GprsSt)
    (m : Network.MqttSt)
    (_hclient : m.hasClient = true)
    (h1conn : env1.mqttClientConnected = false)
    (h1past : Network.MQTT_RECONNECT_DELAY_MS ≤ u32sub env1.now m.lastReconnectAttempt)
    (h2conn : env2.mqttClientConnected = false)
    (h2in : u32sub env2.now env1.now < Network.MQTT_RECONNECT_DELAY_MS) :
    (Network.MqttService.ensureConnection env1 g m).2.1.lastReconnectAttempt =
      env1.now % U32 ∧
    (Network.MqttService.ensureConnection env2
        (Network.MqttService.ensureConnection env1 g m).2.2.1
        (Network.MqttService.ensureConnection env1 g m).2.1).1 = false ∧
    (Network.MqttService.ensureConnection env2
        (Network.MqttService.ensureConnection env1 g m).2.2.1
        (Network.MqttService.ensureConnection env1 g m).2.1).2.2.2 =
      ⟨false, false⟩ ∧
    (Network.MqttService.ensureConnection env2
        (Network.MqttService.ensureConnection env1 g m).2.2.1
        (Network.MqttService.ensureConnection env1 g m).2.1).2.2.1 =
      (Network.MqttService.ensureConnection env1 g m).2.2.1 := by
  have hnc1 : (Network.MqttService.isConnected env1 m).1 = false :=
    mqtt_isConnected_false_of env1 m h1conn
  obtain ⟨hlra, _⟩ := mqtt_ensure_attempt_fields env1 g m hnc1 h1past
  have hnc2 : (Network.MqttService.isConnected env2
      (Network.MqttService.ensureConnection env1 g m).2.1).1 = false :=
    mqtt_isConnected_false_of env2 _ h2conn
  have hin2 : u32sub env2.now
      (Network.MqttService.ensureConnection env1 g m).2.1.lastReconnectAttempt <
      Network.MQTT_RECONNECT_DELAY_MS := by
    rw [hlra, u32sub_mod_right]
    exact h2in
  have hshort := mqtt_ensure_dwell_shortcircuit env2
    (Network.MqttService.ensureConnection env1 g m).2.2.1
    (Network.MqttService.ensureConnection env1 g m).2.1 hnc2 hin2
  rw [hshort]
  exact ⟨hlra, rfl, rfl, rfl⟩

/-- First-call environment for the C6 witness: disconnected at 20 s,
past the dwell window of the (zero) initial attempt time. -/
def env1C6 : Network.NetEnv :=
  { now := 20000, modemNetworkConnected := false, waitForNetworkOk := false,
    modemNetworkConnectedAfterWait := false, modemGprsConnected := false,
    gprsConnectOk := false, mqttClientConnected := false, mqttConnectOk := false }

/-- Second-call environment for the C6 witness: 5 s later, inside the
10 s dwell window. -/
def env2C6 : Network.NetEnv :=
  { env1C6 with now := 25000 }

/-- Session state for the C6 witness: disconnected, client allocated. -/
def mC6 : Network.MqttSt :=
  { state := Network.MqttState.DISCONNECTED, lastReconnectAttempt := 0,
    hasClient := true }

/-- Transport state for the C6 witness. -/
def gC6 : Network.GprsSt := { state := Network.GprsState.DISCONNECTED }

/-- Witness for C6_dwell_window: second call 5 s after the first
attempt returns false with no connect operations invoked. -/
theorem C6_dwell_window_witness :
    (Network.MqttService.ensureConnection env2C6
        (Network.MqttService.ensureConnection env1C6 gC6 mC6).2.2.1
        (Network.MqttService.ensureConnection env1C6 gC6 mC6).2.1).1 = false ∧
    (Network.MqttService.ensureConnection env2C6
        (Network.MqttService.ensureConnection env1C6 gC6 mC6).2.2.1
        (Network.MqttService.ensureConnection env1C6 gC6 mC6).2.1).2.2.2 =
      ⟨false, false⟩ :=
  ⟨(C6_dwell_window env1C6 env2C6 gC6 mC6 rfl rfl
      (by norm_num [u32sub, U32, mC6, env1C6, Network.MQTT_RECONNECT_DELAY_MS]) rfl
      (by norm_num [u32sub, U32, env1C6, env2C6, Network.MQTT_RECONNECT_DELAY_MS])).2.1,
   (C6_dwell_window env1C6 env2C6 gC6 mC6 rfl rfl
      (by norm_num [u32sub, U32, mC6, env1C6, Network.MQTT_RECONNECT_DELAY_MS]) rfl
      (by norm_num [u32sub, U32, env1C6, env2C6, Network.MQTT_RECONNECT_DELAY_MS])).2.2.1⟩

namespace Network

/-- JSON values as produced by the ArduinoJson document in
buildJsonPayload: strings, integers, rational numbers and objects with
ordered fields. -/
inductive JVal where
  | jstr (s : String)
  | jint (n : ℤ)
  | jnum (q : ℚ)
  | jobj (fields : List (String × JVal))

/-- Embeds struct SensorPayload (mqtt_service.h). -/
structure SensorPayload where
  deviceId : String
  latitude : ℚ
  longitude : ℚ
  batteryLevel : ℤ
  fillLevel : ℤ

/-- The keys of a JSON object, in serialization order. -/
def jsonKeys : JVal → List String
  | JVal.jobj fs => fs.map Prod.fst
  | _ => []

/-- Field lookup in a JSON object. -/
def jsonGet (j : JVal) (k : String) : Option JVal :=
  match j with
  | JVal.jobj fs => (fs.find? (fun p => p.1 = k)).map Prod.snd
  | _ => none

/-- MQTT_TOPIC_PREFIX from config.h ("smartwaste"). -/
def MQTT_TOPIC_HEAD : String := "smartwaste"

/-- MQTT_TOPIC_SUFFIX from config.h ("data"). -/
def MQTT_TOPIC_TAIL : String := "data"

/-- Embeds MqttService::buildTopic (mqtt_service.cpp:199-202). -/
def buildTopic (deviceId : String) : String :=
  MQTT_TOPIC_HEAD ++ "/" ++ deviceId ++ "/" ++ MQTT_TOPIC_TAIL

/-- Embeds MqttService::buildJsonPayload (mqtt_service.cpp:204-220):
device_id, a nested location object with latitude and longitude,
battery_level and fill_level, in document insertion order. -/
def buildJsonPayload (p : SensorPayload) : JVal :=
  JVal.jobj
    [("device_id", JVal.jstr p.deviceId),
     ("location", JVal.jobj
        [("latitude", JVal.jnum p.latitude),
         ("longitude", JVal.jnum p.longitude)]),
     ("battery_level", JVal.jint p.batteryLevel),
     ("fill_level", JVal.jint p.fillLevel)]

end Network

namespace App

/-- The payload construction in SmartWasteApp::publishData
(smart_waste_app.cpp:312-318). -/
def mkPayload (r : SensorReadings) : Network.SensorPayload :=
  { deviceId := DEVICE_ID, latitude := r.latitude, longitude := r.longitude,
    batteryLevel := r.batteryLevel, fillLevel := r.fillLevel }

end App

/-- C8: the topic is exactly prefix/device_id/suffix with the
configured literals, and the JSON payload contains exactly the fields
device_id (string), location (nested object with latitude and
longitude), battery_level and fill_level, each drawn deterministically
from the input payload. -/
theorem C8_topic_payload (p : Network.SensorPayload) :
    Network.buildTopic p.deviceId =
      "smartwaste" ++ "/" ++ p.deviceId ++ "/" ++ "data" ∧
    Network.jsonKeys (Network.buildJsonPayload p) =
      ["device_id", "location", "battery_level", "fill_level"] ∧
    Network.jsonGet (Network.buildJsonPayload p) "device_id" =
      some (Network.JVal.jstr p.deviceId) ∧
    Network.jsonGet (Network.buildJsonPayload p) "location" =
      some (Network.JVal.jobj
        [("latitude", Network.JVal.jnum p.latitude),
         ("longitude", Network.JVal.jnum p.longitude)]) ∧
    Network.jsonGet (Network.buildJsonPayload p) "battery_level" =
      some (Network.JVal.jint p.batteryLevel) ∧
    Network.jsonGet (Network.buildJsonPayload p) "fill_level" =
      some (Network.JVal.jint p.fillLevel) := by
  refine ⟨rfl, rfl, ?_, ?_, ?_, ?_⟩ <;>
    simp [Network.jsonGet, Network.buildJsonPayload, List.find?]

/-- Environment for the C7 scenario: all five echo samples time out,
so the HAL reading is the one produced by getDistanceAvg on all-zero
durations. -/
def env7 : App.TickEnv :=
  { now := 3000, dist := HAL.getDistanceAvg 5 (fun _ => 0) 3000,
    batteryLevel := 85, publishOk := true, modemReady := true,
    gprsConnected := true }

/-- C7: the claim says the published payload carries distance_cm = -1.
The SensorReadings do carry distanceCm = -1 and fillLevel = -1 after an
all-timeout cycle, and the payload carries fill_level = -1, but the
JSON payload built by buildJsonPayload has no distance_cm field at all:
looking it up yields none, not -1. -/
theorem C7_counterexample :
    (HAL.getDistanceAvg 5 (fun _ => 0) 3000).valid = false ∧
    (App.readSensors env7 App.initialState).distanceCm = -1 ∧
    (App.readSensors env7 App.initialState).fillLevel = -1 ∧
    Network.jsonGet
      (Network.buildJsonPayload
        (App.mkPayload (App.readSensors env7 App.initialState)))
      "fill_level" = some (Network.JVal.jint (-1)) ∧
    Network.jsonGet
      (Network.buildJsonPayload
        (App.mkPayload (App.readSensors env7 App.initialState)))
      "distance_cm" = none := by
  have hloop : Drivers.avgLoop (fun _ => 0) 5 = (0, 0) := by
    norm_num [Drivers.avgLoop, Drivers.measureDistanceCm]
  have havg : Drivers.measureDistanceAvgCm 5 (fun _ => 0) = -1 := by
    norm_num [Drivers.measureDistanceAvgCm, hloop]
  have hdist : (HAL.getDistanceAvg 5 (fun _ => 0) 3000).valid = false := by
    norm_num [HAL.getDistanceAvg, havg, HAL.SENSOR_MIN_DISTANCE_CM,
      HAL.SENSOR_MAX_DISTANCE_CM]
  have hread : App.readSensors env7 App.initialState =
      { distanceCm := -1, fillLevel := -1, latitude := App.DEFAULT_LATITUDE,
        longitude := App.DEFAULT_LONGITUDE, batteryLevel := 85,
        gpsValid := false, timestamp := 3000 } := by
    rw [App.readSensors]
    rw [if_neg (by simp [env7, hdist])]
    rfl
  refine ⟨hdist, by rw [hread], by rw [hread], ?_, ?_⟩ <;>
    rw [hread] <;>
    simp [Network.jsonGet, Network.buildJsonPayload, App.mkPayload, List.find?]

/-- C7 (amended): for every cycle whose distance reading is invalid,
the built SensorReadings carry distanceCm = -1 and fillLevel = -1, and
the JSON payload built from them carries fill_level = -1 (neither 0
nor 100); the payload has no distance_cm field (the distance is not
published), and an all-timeout measurement does produce an invalid
reading. -/
theorem C7_amended_sentinel (env : App.TickEnv) (s : App.AppSt)
    (n t : Nat) (h : env.dist.valid = false) :
    (App.readSensors env s).distanceCm = -1 ∧
    (App.readSensors env s).fillLevel = -1 ∧
    Network.jsonGet
      (Network.buildJsonPayload (App.mkPayload (App.readSensors env s)))
      "fill_level" = some (Network.JVal.jint (-1)) ∧
    Network.jsonGet
      (Network.buildJsonPayload (App.mkPayload (App.readSensors env s)))
      "fill_level" ≠ some (Network.JVal.jint 0) ∧
    Network.jsonGet
      (Network.buildJsonPayload (App.mkPayload (App.readSensors env s)))
      "fill_level" ≠ some (Network.JVal.jint 100) ∧
    Network.jsonGet
      (Network.buildJsonPayload (App.mkPayload (App.readSensors env s)))
      "distance_cm" = none ∧
    (HAL.getDistanceAvg n (fun _ => 0) t).valid = false := by
  have hread : App.readSensors env s =
      { distanceCm := -1, fillLevel := -1, latitude := App.DEFAULT_LATITUDE,
        longitude := App.DEFAULT_LONGITUDE, batteryLevel := env.batteryLevel,
        gpsValid := false, timestamp := env.now } := by
    rw [App.readSensors]
    rw [if_neg (by simp [h])]
  have hzero : Drivers.avgLoop (fun _ => 0) (if n = 0 then 1 else n) = (0, 0) := by
    have hc : ntCount (fun _ => 0) (if n = 0 then 1 else n) = 0 := by
      generalize (if n = 0 then 1 else n) = k
      induction k with
      | zero => rfl
      | succ k ih => simp [ntCount, ih]
    have hs : ntSum (fun _ => 0) (if n = 0 then 1 else n) = 0 := by
      generalize (if n = 0 then 1 else n) = k
      induction k with
      | zero => rfl
      | succ k ih => simp [ntSum, ih]
    rw [avgLoop_eq, hc, hs]
  have havg : Drivers.measureDistanceAvgCm n (fun _ => 0) = -1 := by
    simp only [Drivers.measureDistanceAvgCm, hzero]
    norm_num
  have hinv : (HAL.getDistanceAvg n (fun _ => 0) t).valid = false := by
    norm_num [HAL.getDistanceAvg, havg, HAL.SENSOR_MIN_DISTANCE_CM,
      HAL.SENSOR_MAX_DISTANCE_CM]
  refine ⟨by rw [hread], by rw [hread], ?_, ?_, ?_, ?_, hinv⟩ <;>
    rw [hread] <;>
    simp [Network.jsonGet, Network.buildJsonPayload, App.mkPayload, List.find?]

/-- Witness for C7_amended_sentinel at the concrete all-timeout cycle. -/
theorem C7_amended_sentinel_witness :
    (App.readSensors env7 s0C3).distanceCm = -1 ∧
    (App.readSensors env7 s0C3).fillLevel = -1 :=
  ⟨(C7_amended_sentinel env7 s0C3 5 3000 (by
      norm_num [env7, HAL.getDistanceAvg, Drivers.measureDistanceAvgCm,
        Drivers.avgLoop, Drivers.measureDistanceCm,
        HAL.SENSOR_MIN_DISTANCE_CM, HAL.SENSOR_MAX_DISTANCE_CM])).1,
   (C7_amended_sentinel env7 s0C3 5 3000 (by
      norm_num [env7, HAL.getDistanceAvg, Drivers.measureDistanceAvgCm,
        Drivers.avgLoop, Drivers.measureDistanceCm,
        HAL.SENSOR_MIN_DISTANCE_CM, HAL.SENSOR_MAX_DISTANCE_CM])).2.1⟩
